import Mathlib

/-!
Verification of the autonet configuration generation and deployment pipeline.

Each section embeds one part of the Python source as executable Lean
definitions and proves (or refutes) the frozen specification claims about it.
Python dictionaries are modelled as association lists, SQLite tables as lists
of rows, and fallible operations as Except / Option values. Python strings
are modelled as Lean String values, with the str methods the source uses
(split, upper, int conversion) implemented over the underlying character
list so that concrete instances evaluate inside the kernel.
-/

set_option maxRecDepth 8000

namespace Autonet

/-! ## Python string primitives used by the embedded code -/

/-- Mirrors str.split(sep) for a one-character separator: split at every
occurrence of the separator, preserving empty chunks. -/
def splitChunks (sep : Char) : List Char → List (List Char)
  | [] => [[]]
  | c :: cs =>
    let rest := splitChunks sep cs
    if c = sep then [] :: rest
    else
      match rest with
      | [] => [[c]]
      | r :: rs => (c :: r) :: rs

/-- str.split(sep) on a String. -/
def pySplit (sep : Char) (s : String) : List String :=
  (splitChunks sep s.data).map String.mk

/-- str.upper() (the source only upper-cases ASCII community names). -/
def pyUpper (s : String) : String :=
  String.mk (s.data.map Char.toUpper)

/-- Value of a nonempty all-digit character list. -/
def digitsVal (s : List Char) : Nat :=
  s.foldl (fun acc c => acc * 10 + (c.toNat - 48)) 0

/-- int(s) for a string already known to match a digit group, returning
none exactly when the string is not a nonempty digit sequence. This models
the source pattern of a regex digit-group match followed by int(), as well
as int() calls guarded by a ValueError handler. -/
def pyToNat? (s : String) : Option Nat :=
  if s.data ≠ [] ∧ s.data.all Char.isDigit then some (digitsVal s.data)
  else none

end Autonet

namespace Autonet

/-! ## BGP communities (src/lib/bgp_communities.py) -/

namespace Bgp

/-- Mirrors the CommunityType enum. -/
inductive CommunityType where
  | standard
  | extended
  | large
deriving DecidableEq, Repr

/-- Mirrors the BGPCommunity dataclass: type, original value string, parsed
integer tuple. -/
structure BGPCommunity where
  community_type : CommunityType
  value : String
  parsed_value : List Nat
deriving DecidableEq, Repr

/-- Mirrors BGPCommunityManager.WELL_KNOWN_COMMUNITIES. -/
def wellKnownCommunities : List (String × String) :=
  [("NO_EXPORT", "65535:65281"),
   ("NO_ADVERTISE", "65535:65282"),
   ("NO_EXPORT_SUBCONFED", "65535:65283"),
   ("BLACKHOLE", "65535:666")]

/-- Mirrors validate_standard_community: the regex check for two nonempty
digit groups separated by one colon together with the int() conversions is
modelled by splitting on the colon and converting each part with pyToNat?,
which succeeds exactly on nonempty digit strings; both halves must fit in
16 bits. -/
def validate_standard_community (community : String) : Bool :=
  match pySplit ':' community with
  | [a, b] =>
    match pyToNat? a, pyToNat? b with
    | some asn, some value => decide (asn ≤ 65535) && decide (value ≤ 65535)
    | _, _ => false
  | _ => false

/-- Mirrors validate_large_community: three nonempty digit groups separated
by colons, each fitting in 32 bits. -/
def validate_large_community (community : String) : Bool :=
  match pySplit ':' community with
  | [a, b, c] =>
    match pyToNat? a, pyToNat? b, pyToNat? c with
    | some asn, some l1, some l2 =>
      decide (asn ≤ 4294967295) && decide (l1 ≤ 4294967295) &&
        decide (l2 ≤ 4294967295)
    | _, _, _ => false
  | _ => false

/-- Mirrors validate_community: well-known names (upper-cased membership in
the table) are valid standard communities; otherwise a 3-part string is
checked as a large community and a 2-part string as a standard community.
The source also tests that a colon occurs in the string; that test is
implied by the split producing 2 or 3 parts. -/
def validate_community (community : String) : Bool × CommunityType :=
  if (wellKnownCommunities.lookup (pyUpper community)).isSome then
    (true, CommunityType.standard)
  else
    let parts := pySplit ':' community
    if parts.length = 3 then
      (validate_large_community community, CommunityType.large)
    else if parts.length = 2 then
      (validate_standard_community community, CommunityType.standard)
    else
      (false, CommunityType.standard)

/-- Mirrors the tuple(int(x) for x in community.split(":")) conversion with
its surrounding ValueError handler. -/
def parseParts : List String → Option (List Nat)
  | [] => some []
  | p :: ps =>
    match pyToNat? p, parseParts ps with
    | some n, some ns => some (n :: ns)
    | _, _ => none

/-- Mirrors parse_community: a well-known name is replaced by its mapped
numeric string; otherwise the input is validated and, when valid, the value
field keeps the original string while the parsed tuple comes from the int()
conversions of the colon-separated parts. -/
def parse_community (community : String) : Option BGPCommunity :=
  match wellKnownCommunities.lookup (pyUpper community) with
  | some actual =>
    match parseParts (pySplit ':' actual) with
    | some parts => some ⟨CommunityType.standard, actual, parts⟩
    | none => none
  | none =>
    let v := validate_community community
    if v.1 then
      match parseParts (pySplit ':' community) with
      | some parts => some ⟨v.2, community, parts⟩
      | none => none
    else
      none

/-- Mirrors generate_blackhole_communities: always the RFC 7999 community;
an ASN-scoped standard community for 16-bit ASNs; for larger ASNs the large
community only when use_large is set, and the high:low split encoding
unconditionally. -/
def generate_blackhole_communities (asn : Nat) (use_large : Bool) :
    List String :=
  let communities := ["65535:666"]
  if asn ≤ 65535 then
    communities ++ [toString asn ++ ":666"]
  else
    (communities ++ (if use_large then [toString asn ++ ":666:0"] else []))
      ++ [toString (asn >>> 16) ++ ":" ++ toString (asn &&& 65535)]

lemma parseParts_of_standard (c : String)
    (h : validate_standard_community c = true) :
    ∃ ns, parseParts (pySplit ':' c) = some ns := by
  unfold validate_standard_community at h
  split at h
  case _ a b heq =>
    split at h
    case _ x y hx hy =>
      exact ⟨[x, y], by simp [heq, parseParts, hx, hy]⟩
    case _ => simp at h
  case _ => simp at h

lemma parseParts_of_large (c : String)
    (h : validate_large_community c = true) :
    ∃ ns, parseParts (pySplit ':' c) = some ns := by
  unfold validate_large_community at h
  split at h
  case _ a b d heq =>
    split at h
    case _ x y z hx hy hz =>
      exact ⟨[x, y, z], by simp [heq, parseParts, hx, hy, hz]⟩
    case _ => simp at h
  case _ => simp at h

lemma parseParts_of_valid (c : String)
    (hw : wellKnownCommunities.lookup (pyUpper c) = none)
    (hv : (validate_community c).1 = true) :
    ∃ ns, parseParts (pySplit ':' c) = some ns := by
  unfold validate_community at hv
  rw [hw] at hv
  simp only [Option.isSome_none, Bool.false_eq_true, if_false] at hv
  split at hv
  · exact parseParts_of_large c hv
  · split at hv
    · exact parseParts_of_standard c hv
    · simp at hv

end Bgp

/-! ## Claim theorems for the BGP community manager -/

/-- C9 counterexample: the well-known name NO_EXPORT is accepted by
validate_community, but parse_community maps it to the numeric string
65535:65281, so the returned value field differs from the input. -/
theorem C9_counterexample :
    (Bgp.validate_community "NO_EXPORT").1 = true ∧
    (Bgp.parse_community "NO_EXPORT").map (fun b => b.value) =
      some "65535:65281" ∧
    "65535:65281" ≠ "NO_EXPORT" := by decide

/-- C9 (amended): for every community string accepted by validate_community
that is not a well-known community name, parse_community returns a
BGPCommunity whose value field equals the input string; well-known names
are instead replaced by their mapped numeric community string. -/
theorem C9_parse_value_roundtrip (c : String)
    (hw : Bgp.wellKnownCommunities.lookup (pyUpper c) = none)
    (hv : (Bgp.validate_community c).1 = true) :
    ∃ b, Bgp.parse_community c = some b ∧ b.value = c := by
  obtain ⟨ns, hns⟩ := Bgp.parseParts_of_valid c hw hv
  refine ⟨⟨(Bgp.validate_community c).2, c, ns⟩, ?_, rfl⟩
  unfold Bgp.parse_community
  rw [hw]
  simp only [hv, if_true, hns]

/-- C9 witness: the roundtrip theorem applied to the concrete community
string 64512:100. -/
theorem C9_witness :
    ∃ b, Bgp.parse_community "64512:100" = some b ∧ b.value = "64512:100" :=
  C9_parse_value_roundtrip "64512:100" (by decide) (by decide)

/-- C6 counterexample: for the 32-bit ASN 65536 with use_large = false the
generator emits the legacy split encoding 1:0 even though large communities
were not requested, contradicting the claim that the split encoding is
emitted only together with the requested large community. -/
theorem C6_counterexample :
    Bgp.generate_blackhole_communities 65536 false = ["65535:666", "1:0"] ∧
    "1:0" ∈ Bgp.generate_blackhole_communities 65536 false := by decide

/-- C6 (amended): the generator always includes 65535:666; for an ASN of at
most 65535 it adds exactly ASN:666; for a larger ASN it includes the legacy
split encoding (ASN>>16):(ASN&0xFFFF) unconditionally and the large
community ASN:666:0 exactly when large communities are requested. -/
theorem C6_blackhole_communities (asn : Nat) (u : Bool) :
    "65535:666" ∈ Bgp.generate_blackhole_communities asn u ∧
    (asn ≤ 65535 →
      Bgp.generate_blackhole_communities asn u =
        ["65535:666", toString asn ++ ":666"]) ∧
    (65535 < asn →
      Bgp.generate_blackhole_communities asn u =
        ["65535:666"] ++ (if u then [toString asn ++ ":666:0"] else []) ++
          [toString (asn >>> 16) ++ ":" ++ toString (asn &&& 65535)]) := by
  unfold Bgp.generate_blackhole_communities
  by_cases h : asn ≤ 65535
  · simp [h]
  · have h2 : 65535 < asn := Nat.lt_of_not_le h
    simp [h, Nat.not_le_of_lt h2]

/-- C6 witness: the amended theorem applied at ASN 65536 with large
communities disabled. -/
theorem C6_witness :
    Bgp.generate_blackhole_communities 65536 false =
      ["65535:666"] ++
        (if false then [toString 65536 ++ ":666:0"] else []) ++
        [toString (65536 >>> 16) ++ ":" ++ toString (65536 &&& 65535)] :=
  (C6_blackhole_communities 65536 false).2.2 (by decide)

/-! ## Prefix-limit derivation (src/peering_filters.py,
memory_efficient_max_prefixes_processing) -/

namespace Pfx

/-- One element of the PeeringDB /api/net data array, restricted to the
fields the function reads. -/
structure NetRecord where
  asn : Option Nat
  info_prefixes4 : Option Int
  info_prefixes6 : Option Int

/-- Per-address-family limit derivation: a missing value or a value below
100 is clamped to 100, otherwise the value is scaled by 1.1 and truncated.
The source computes int(v * 1.1) in IEEE double arithmetic; for every
0 ≤ v < 3 * 10 ^ 14 (far beyond any registry prefix count) that double
computation returns exactly the truncation of the rational v * 11 / 10,
which is how the scaling is embedded here. -/
def deriveLimit (v : Option Int) : Int :=
  match v with
  | none => 100
  | some n => if n < 100 then 100 else n * 11 / 10

/-- Python dict assignment max_prefixes[asn] = entry: replace in place if
the key exists, otherwise append (insertion order preserved). -/
def upsert (k : String) (vv : Int × Int) :
    List (String × (Int × Int)) → List (String × (Int × Int))
  | [] => [(k, vv)]
  | (k0, v0) :: rest =>
    if k0 = k then (k, vv) :: rest else (k0, v0) :: upsert k vv rest

/-- One iteration of the netdata loop: records without an asn field are
skipped; otherwise both per-family limits are (re)written for key ASn. -/
def processNet (m : List (String × (Int × Int))) (r : NetRecord) :
    List (String × (Int × Int)) :=
  match r.asn with
  | none => m
  | some n =>
    upsert ("AS" ++ toString n)
      (deriveLimit r.info_prefixes4, deriveLimit r.info_prefixes6) m

/-- Mirrors memory_efficient_max_prefixes_processing over the streamed
record list (pagination, progress printing and garbage collection have no
effect on the resulting mapping). -/
def memory_efficient_max_prefixes_processing (records : List NetRecord) :
    List (String × (Int × Int)) :=
  records.foldl processNet []

lemma upsert_mem {k vv kv} :
    ∀ m, kv ∈ upsert k vv m → kv = (k, vv) ∨ kv ∈ m := by
  intro m
  induction m with
  | nil => intro h; simpa [upsert] using h
  | cons hd tl ih =>
    intro h
    obtain ⟨k0, v0⟩ := hd
    by_cases hk : k0 = k
    · rw [upsert, if_pos hk, List.mem_cons] at h
      rcases h with h | h
      · exact Or.inl h
      · exact Or.inr (List.mem_cons_of_mem _ h)
    · rw [upsert, if_neg hk, List.mem_cons] at h
      rcases h with h | h
      · exact Or.inr (h ▸ List.mem_cons_self _ _)
      · rcases ih h with h2 | h2
        · exact Or.inl h2
        · exact Or.inr (List.mem_cons_of_mem _ h2)

/-- Every entry of the resulting map is the limit derivation of some record
in the input. -/
def entryFromRecord (records : List NetRecord) (kv : String × (Int × Int)) :
    Prop :=
  ∃ r ∈ records, ∃ n, r.asn = some n ∧ kv.1 = "AS" ++ toString n ∧
    kv.2 = (deriveLimit r.info_prefixes4, deriveLimit r.info_prefixes6)

lemma foldl_entries (full : List NetRecord) :
    ∀ (rs : List NetRecord), (∀ x ∈ rs, x ∈ full) →
      ∀ (m : List (String × (Int × Int))),
        (∀ kv ∈ m, entryFromRecord full kv) →
        ∀ kv ∈ rs.foldl processNet m, entryFromRecord full kv := by
  intro rs
  induction rs with
  | nil => intro _ m hm kv hkv; exact hm kv hkv
  | cons r rs ih =>
    intro hsub m hm kv hkv
    refine ih (fun x hx => hsub x (List.mem_cons_of_mem _ hx)) _ ?_ kv hkv
    intro kv2 hkv2
    unfold processNet at hkv2
    cases hasn : r.asn with
    | none => simp only [hasn] at hkv2; exact hm kv2 hkv2
    | some n =>
      simp only [hasn] at hkv2
      rcases upsert_mem _ hkv2 with h | h
      · exact ⟨r, hsub r (List.mem_cons_self _ _), n, hasn, by rw [h],
          by rw [h]⟩
      · exact hm kv2 h

end Pfx

/-- C5: the derived per-family limit is 100 when the registry reports no
value or a value below 100, and otherwise the reported value scaled by 1.1
and truncated; 50 yields 100 and 1000 yields 1100; and every entry of the
mapping produced by the processing loop is such a derivation of some input
record. -/
theorem C5_prefix_limit_derivation :
    Pfx.deriveLimit none = 100 ∧
    (∀ n : Int, n < 100 → Pfx.deriveLimit (some n) = 100) ∧
    (∀ n : Int, 100 ≤ n → Pfx.deriveLimit (some n) = n * 11 / 10) ∧
    Pfx.deriveLimit (some 50) = 100 ∧
    Pfx.deriveLimit (some 1000) = 1100 ∧
    (∀ records kv,
      kv ∈ Pfx.memory_efficient_max_prefixes_processing records →
      Pfx.entryFromRecord records kv) := by
  refine ⟨rfl, ?_, ?_, by decide, by decide, ?_⟩
  · intro n h; simp [Pfx.deriveLimit, h]
  · intro n h; simp [Pfx.deriveLimit, Int.not_lt.mpr h]
  · intro records kv h
    exact Pfx.foldl_entries records records (fun x hx => hx) [] (by simp) kv h

/-- C5 witness: the derivation applied at the concrete reported values 50
and 1000, and the processing loop applied to one concrete record. -/
theorem C5_witness :
    Pfx.deriveLimit (some 50) = 100 ∧ Pfx.deriveLimit (some 1000) = 1100 ∧
    Pfx.entryFromRecord [⟨some 64512, some 1000, some 50⟩]
      ("AS64512", (1100, 100)) :=
  ⟨C5_prefix_limit_derivation.2.2.2.1,
   C5_prefix_limit_derivation.2.2.2.2.1,
   C5_prefix_limit_derivation.2.2.2.2.2 [⟨some 64512, some 1000, some 50⟩]
     ("AS64512", (1100, 100)) (by decide)⟩

/-! ## Per-setting precedence lookup (src/peering_filters.py, ebgp_setting
and friends) -/

namespace Ebgp

/-- The bgp_settings[asn] sub-dictionary; each optional field models
presence of the session / ixp / common keys. -/
structure AsnSettings where
  session : Option (List (String × List (String × Int)))
  ixp : Option (List (String × List (String × Int)))
  common : Option (List (String × Int))

/-- The session-IP-specific branch of ebgp_setting: defined exactly when
asn is in bgp_settings, the session key exists, the ip is in it and the
setting is in that dictionary. -/
def sessionOverride (bs : List (String × AsnSettings))
    (asn ip setting : String) : Option Int :=
  match bs.lookup asn with
  | none => none
  | some st =>
    match st.session with
    | none => none
    | some m =>
      match m.lookup ip with
      | none => none
      | some d => d.lookup setting

/-- The IXP-specific branch of ebgp_setting. -/
def ixpOverride (bs : List (String × AsnSettings))
    (asn ixp setting : String) : Option Int :=
  match bs.lookup asn with
  | none => none
  | some st =>
    match st.ixp with
    | none => none
    | some m =>
      match m.lookup ixp with
      | none => none
      | some d => d.lookup setting

/-- The ASN-common branch of ebgp_setting. -/
def commonOverride (bs : List (String × AsnSettings))
    (asn setting : String) : Option Int :=
  match bs.lookup asn with
  | none => none
  | some st =>
    match st.common with
    | none => none
    | some d => d.lookup setting

/-- The IXP-default branch: the setting looked up in ixp_map[ixp]. -/
def ixpDefault (im : List (String × List (String × Int)))
    (ixp setting : String) : Option Int :=
  match im.lookup ixp with
  | none => none
  | some d => d.lookup setting

/-- Mirrors ebgp_setting: the three asn-scoped overrides are tried in
order (the source guards them with one membership test on bgp_settings,
which is equivalent to each branch failing when the asn key is absent),
then the IXP default, then the passed default value. The missing
bgp_settings key in generic is modelled by an empty list. -/
def ebgp_setting (setting : String) (default_value : Int)
    (asn ixp ip : String) (bs : List (String × AsnSettings))
    (im : List (String × List (String × Int))) : Int :=
  match sessionOverride bs asn ip setting with
  | some v => v
  | none =>
    match ixpOverride bs asn ixp setting with
    | some v => v
    | none =>
      match commonOverride bs asn setting with
      | some v => v
      | none =>
        match ixpDefault im ixp setting with
        | some v => v
        | none => default_value

/-- Mirrors ebgp_peer_type: the peer's declared type field, defaulting to
peer when the manifest entry has no type key. -/
def ebgp_peer_type (ptype : Option String) : String :=
  ptype.getD "peer"

/-- Mirrors ebgp_local_pref_default. -/
def ebgp_local_pref_default (peer_type : String) (default_value : Int) :
    Int :=
  if peer_type = "downstream" then 500
  else if peer_type = "upstream" then 60
  else default_value

/-- Mirrors ebgp_local_pref. -/
def ebgp_local_pref (ptype : Option String) (asn ixp ip : String)
    (bs : List (String × AsnSettings))
    (im : List (String × List (String × Int))) : Int :=
  ebgp_setting "bgp_local_pref"
    (ebgp_local_pref_default (ebgp_peer_type ptype) 100) asn ixp ip bs im

end Ebgp

/-- C4: the effective local-preference is resolved session override first,
then IXP override, then ASN-common override, then the IXP default, then
the peer-type fallback (downstream 500, upstream 60, otherwise 100), first
match winning; in particular a session-level override beats a coexisting
IXP-level override. -/
theorem C4_local_pref_precedence (ptype : Option String)
    (asn ixp ip : String) (bs : List (String × Ebgp.AsnSettings))
    (im : List (String × List (String × Int))) :
    (∀ v, Ebgp.sessionOverride bs asn ip "bgp_local_pref" = some v →
      Ebgp.ebgp_local_pref ptype asn ixp ip bs im = v) ∧
    (∀ v w, Ebgp.sessionOverride bs asn ip "bgp_local_pref" = some v →
      Ebgp.ixpOverride bs asn ixp "bgp_local_pref" = some w →
      Ebgp.ebgp_local_pref ptype asn ixp ip bs im = v) ∧
    (∀ v, Ebgp.sessionOverride bs asn ip "bgp_local_pref" = none →
      Ebgp.ixpOverride bs asn ixp "bgp_local_pref" = some v →
      Ebgp.ebgp_local_pref ptype asn ixp ip bs im = v) ∧
    (∀ v, Ebgp.sessionOverride bs asn ip "bgp_local_pref" = none →
      Ebgp.ixpOverride bs asn ixp "bgp_local_pref" = none →
      Ebgp.commonOverride bs asn "bgp_local_pref" = some v →
      Ebgp.ebgp_local_pref ptype asn ixp ip bs im = v) ∧
    (∀ v, Ebgp.sessionOverride bs asn ip "bgp_local_pref" = none →
      Ebgp.ixpOverride bs asn ixp "bgp_local_pref" = none →
      Ebgp.commonOverride bs asn "bgp_local_pref" = none →
      Ebgp.ixpDefault im ixp "bgp_local_pref" = some v →
      Ebgp.ebgp_local_pref ptype asn ixp ip bs im = v) ∧
    (Ebgp.sessionOverride bs asn ip "bgp_local_pref" = none →
      Ebgp.ixpOverride bs asn ixp "bgp_local_pref" = none →
      Ebgp.commonOverride bs asn "bgp_local_pref" = none →
      Ebgp.ixpDefault im ixp "bgp_local_pref" = none →
      Ebgp.ebgp_local_pref ptype asn ixp ip bs im =
        Ebgp.ebgp_local_pref_default (Ebgp.ebgp_peer_type ptype) 100) ∧
    (∀ t, Ebgp.ebgp_local_pref_default t 100 =
      if t = "downstream" then 500 else if t = "upstream" then 60 else 100) :=
  by
  refine ⟨?_, ?_, ?_, ?_, ?_, ?_, ?_⟩
  · intro v h1
    simp [Ebgp.ebgp_local_pref, Ebgp.ebgp_setting, h1]
  · intro v w h1 _
    simp [Ebgp.ebgp_local_pref, Ebgp.ebgp_setting, h1]
  · intro v h1 h2
    simp [Ebgp.ebgp_local_pref, Ebgp.ebgp_setting, h1, h2]
  · intro v h1 h2 h3
    simp [Ebgp.ebgp_local_pref, Ebgp.ebgp_setting, h1, h2, h3]
  · intro v h1 h2 h3 h4
    simp [Ebgp.ebgp_local_pref, Ebgp.ebgp_setting, h1, h2, h3, h4]
  · intro h1 h2 h3 h4
    simp [Ebgp.ebgp_local_pref, Ebgp.ebgp_setting, h1, h2, h3, h4]
  · intro t; rfl

/-- C4 witness: with a session-level override 250 and an IXP-level
override 80 both present for the same ASN and setting, the session value
wins. -/
theorem C4_witness :
    Ebgp.ebgp_local_pref (some "peer") "AS64512" "AMS-IX" "203.0.113.1"
      [("AS64512",
        ⟨some [("203.0.113.1", [("bgp_local_pref", 250)])],
         some [("AMS-IX", [("bgp_local_pref", 80)])],
         none⟩)]
      [("AMS-IX", [("bgp_local_pref", 100)])] = 250 :=
  (C4_local_pref_precedence (some "peer") "AS64512" "AMS-IX" "203.0.113.1"
      [("AS64512",
        ⟨some [("203.0.113.1", [("bgp_local_pref", 250)])],
         some [("AMS-IX", [("bgp_local_pref", 80)])],
         none⟩)]
      [("AMS-IX", [("bgp_local_pref", 100)])]).2.1 250 80
    (by decide) (by decide)

/-! ## IRR filter generation (src/peering_filters.py, generate_filters and
process_asn) -/

namespace Filters

/-- A Python value that is either a string or a list of strings: the
as_set parameter of generate_filters is compared against the string ANY
although its callers pass a token list, so the embedding keeps the dynamic
type. -/
inductive PyStrOrList where
  | str (s : String)
  | list (xs : List String)
deriving DecidableEq, Repr

/-- Observable effect of one loop iteration of generate_filters: either
the external bgpq3 tool is spawned with its stdout captured to the named
artifact file (creating or refreshing it), or the existing artifact is
reused. -/
inductive FilterAction where
  | bgpq3Run (filename : String) (v : Nat)
  | cacheHit (filename : String)
deriving DecidableEq, Repr

/-- Mirrors generate_filters: for each address family, unless as_set
equals the string ANY, the artifact file is reused when it exists and is
at most an hour old, and otherwise bgpq3 is invoked writing the file.
fsAge maps existing artifact filenames to their age in seconds. -/
def generate_filters (asn : String) (as_set : PyStrOrList)
    (fsAge : List (String × Nat)) (loose : Bool) : List FilterAction :=
  let filenamePrefixPart := if loose then "looseprefixset" else "prefixset"
  ([4, 6] : List Nat).foldl
    (fun acc v =>
      if as_set = PyStrOrList.str "ANY" then acc
      else
        let filename :=
          asn ++ "." ++ filenamePrefixPart ++ ".bird.ipv" ++ toString v
        match fsAge.lookup filename with
        | some age =>
          if 3600 < age then acc ++ [FilterAction.bgpq3Run filename v]
          else acc ++ [FilterAction.cacheHit filename]
        | none => acc ++ [FilterAction.bgpq3Run filename v])
    []

/-- Mirrors process_asn in prefix-set generation mode: the peer's import
field is tokenised with str.split() (whitespace split dropping empties)
and passed to generate_filters as a list; a loose run is added for
blackhole-accepting peers. -/
def process_asn (asn importField : String) (blackhole_accept : Bool)
    (generate_prefixsets : Bool) (fsAge : List (String × Nat)) :
    List FilterAction :=
  if generate_prefixsets then
    let tokens :=
      (pySplit ' ' importField).filter (fun w => w ≠ "")
    generate_filters asn (PyStrOrList.list tokens) fsAge false ++
      (if blackhole_accept then
        generate_filters asn (PyStrOrList.list tokens) fsAge true
      else [])
  else []

end Filters

/-- C2: contrary to the claim, an import token list of exactly ANY is not
skipped: the skip guard compares the token list against the string ANY,
which can never be equal, so process_asn invokes bgpq3 for both address
families and creates both artifact files for an unfiltered peer. -/
theorem C2_any_peer_not_skipped :
    Filters.process_asn "AS64512" "ANY" false true [] =
      [Filters.FilterAction.bgpq3Run "AS64512.prefixset.bird.ipv4" 4,
       Filters.FilterAction.bgpq3Run "AS64512.prefixset.bird.ipv6" 6] ∧
    ∀ xs : List String,
      (Filters.PyStrOrList.list xs = Filters.PyStrOrList.str "ANY") = False :=
  ⟨by decide, fun xs => eq_false (fun h => Filters.PyStrOrList.noConfusion h)⟩

/-! ## Registry-session resolution with not_with removal
(src/peering_filters.py, main resolver loop) -/

namespace Resolver

/-- The session-selection fields of one manifest peer entry; each optional
field models presence of the corresponding key. -/
structure PeerSessionDecl where
  only_with : Option (List String)
  private_peerings : Option (List String)
  not_with : Option (List String)

/-- Python list.remove: deletes the first occurrence, raising ValueError
when the element is absent. -/
def pyListRemove (xs : List String) (x : String) :
    Except String (List String) :=
  if x ∈ xs then Except.ok (xs.erase x) else Except.error "ValueError"

/-- The not_with loop: each entry failing IP validation is reported and
skipped; every valid entry is removed from the session list with
list.remove. validIP stands for validate_ip_address, whose IP parsing is
done by the Python standard library. -/
def removeNotWith (validIP : String → Bool) :
    List String → List String → Except String (List String)
  | [], sessions => Except.ok sessions
  | r :: rest, sessions =>
    if validIP r then
      match pyListRemove sessions r with
      | Except.ok ss => removeNotWith validIP rest ss
      | Except.error e => Except.error e
    else removeNotWith validIP rest sessions

/-- The candidate-session determination of the resolver loop: only_with
beats private_peerings beats registry sessions (with not_with removal);
a peer absent from the registry yields none (skipped for the run). An
uncaught exception is an error result. -/
def resolve_sessions (validIP : String → Bool) (decl : PeerSessionDecl)
    (registrySessions : Option (List String)) :
    Except String (Option (List String)) :=
  match decl.only_with with
  | some s => Except.ok (some s)
  | none =>
    match decl.private_peerings with
    | some s => Except.ok (some s)
    | none =>
      match registrySessions with
      | some s =>
        match decl.not_with with
        | none => Except.ok (some s)
        | some removals =>
          match removeNotWith validIP removals s with
          | Except.ok ss => Except.ok (some ss)
          | Except.error e => Except.error e
      | none => Except.ok none

end Resolver

/-- C3 counterexample: removing the valid IP 192.0.2.9 from the
registry-derived session list [192.0.2.1] that does not contain it raises
ValueError and aborts resolution instead of silently no-oping. -/
theorem C3_counterexample :
    Resolver.resolve_sessions (fun _ => true)
        ⟨none, none, some ["192.0.2.9"]⟩ (some ["192.0.2.1"]) =
      Except.error "ValueError" := rfl

/-- C3 (amended): when candidate sessions are registry-derived, a not_with
entry that is a valid IP but absent from the session list raises
ValueError (list.remove), aborting resolution for that peer; an entry
failing IP validation is skipped with the list unchanged; a present entry
removes its first occurrence. -/
theorem C3_not_with_removal (validIP : String → Bool) (s : List String)
    (r : String) (rest : List String) :
    (validIP r = true → r ∉ s →
      Resolver.resolve_sessions validIP ⟨none, none, some (r :: rest)⟩
        (some s) = Except.error "ValueError") ∧
    (validIP r = false →
      Resolver.resolve_sessions validIP ⟨none, none, some (r :: rest)⟩
        (some s) =
      Resolver.resolve_sessions validIP ⟨none, none, some rest⟩ (some s)) ∧
    (validIP r = true → r ∈ s →
      Resolver.resolve_sessions validIP ⟨none, none, some (r :: rest)⟩
        (some s) =
      Resolver.resolve_sessions validIP ⟨none, none, some rest⟩
        (some (s.erase r))) := by
  refine ⟨?_, ?_, ?_⟩
  · intro hv habs
    simp [Resolver.resolve_sessions, Resolver.removeNotWith,
      Resolver.pyListRemove, hv, habs]
  · intro hv
    simp [Resolver.resolve_sessions, Resolver.removeNotWith, hv]
  · intro hv hmem
    simp [Resolver.resolve_sessions, Resolver.removeNotWith,
      Resolver.pyListRemove, hv, hmem]

/-- C3 witness: the amended theorem instantiated at the counterexample
input, and at a present entry. -/
theorem C3_witness :
    Resolver.resolve_sessions (fun _ => true)
        ⟨none, none, some ["192.0.2.9"]⟩ (some ["192.0.2.1"]) =
      Except.error "ValueError" ∧
    Resolver.resolve_sessions (fun _ => true)
        ⟨none, none, some ["192.0.2.1"]⟩ (some ["192.0.2.1", "192.0.2.2"]) =
      Resolver.resolve_sessions (fun _ => true) ⟨none, none, some []⟩
        (some (["192.0.2.1", "192.0.2.2"].erase "192.0.2.1")) :=
  ⟨(C3_not_with_removal (fun _ => true) ["192.0.2.1"] "192.0.2.9" []).1
    rfl (by decide),
   (C3_not_with_removal (fun _ => true) ["192.0.2.1", "192.0.2.2"]
      "192.0.2.1" []).2.2 rfl (by decide)⟩

/-! ## Router deployment (src/update_routers.py, deploy_all and
_deploy_single_router) -/

namespace Deploy

/-- Mirrors the DeploymentRecord dataclass (the id is assigned by the
store; wall-clock duration is modelled as 0 and the timestamp is carried
by the store operations). -/
structure DeploymentRecord where
  generation_id : Option Nat
  router : String
  config_hash : String
  deployment_method : String
  duration_ms : Nat
  success : Bool
  error_message : String
  validation_passed : Bool
  rollback_required : Bool
deriving DecidableEq, Repr

/-- The per-router outcome environment of one _deploy_single_router call:
the maintenance flag, the result of _calculate_config_hash (an error
models an exception escaping into the handler of the surrounding try
block), and the boolean results of _upload_configs and
_reload_bird_config, both of which catch their own exceptions and return
False. -/
structure RouterRun where
  name : String
  maintenance_mode : Bool
  hashResult : Except String String
  uploadOk : Bool
  reloadOk : Bool
deriving Repr

/-- Mirrors _deploy_single_router: maintenance-mode routers return True
with no record; an exception produces one failed record carrying str(e);
a False from upload or reload returns False with no record; a completed
run produces one successful record. -/
def deploySingleRouter (r : RouterRun) : Bool × List DeploymentRecord :=
  if r.maintenance_mode then (true, [])
  else
    match r.hashResult with
    | Except.error msg =>
      (false,
       [⟨none, r.name, "unknown", "ssh", 0, false, msg, false, false⟩])
    | Except.ok h =>
      if !r.uploadOk then (false, [])
      else if !r.reloadOk then (false, [])
      else (true, [⟨none, r.name, h, "ssh", 0, true, "", true, false⟩])

/-- One result-collection step of deploy_all: append the records emitted
by the per-router call and bump the success or failure counter. -/
def deployStep (acc : List DeploymentRecord × Nat × Nat) (r : RouterRun) :
    List DeploymentRecord × Nat × Nat :=
  (acc.1 ++ (deploySingleRouter r).2,
   if (deploySingleRouter r).1 then acc.2.1 + 1 else acc.2.1,
   if (deploySingleRouter r).1 then acc.2.2 else acc.2.2 + 1)

/-- Mirrors deploy_all: every router is deployed, results are collected,
and the aggregate result is success exactly when the failure counter is
zero. Returns (aggregate success, (records written, successful count,
failed count)). -/
def deploy_all (routers : List RouterRun) :
    Bool × List DeploymentRecord × Nat × Nat :=
  let fin := routers.foldl deployStep ([], 0, 0)
  (decide (fin.2.2 = 0), fin)

lemma foldl_deployStep (rs : List RouterRun) :
    ∀ acc, rs.foldl deployStep acc =
      (acc.1 ++ rs.flatMap (fun r => (deploySingleRouter r).2),
       acc.2.1 + rs.countP (fun r => (deploySingleRouter r).1),
       acc.2.2 + rs.countP (fun r => !(deploySingleRouter r).1)) := by
  induction rs with
  | nil => intro acc; simp
  | cons r rs ih =>
    intro acc
    rw [List.foldl_cons, ih]
    simp only [deployStep, List.flatMap_cons, List.countP_cons,
      List.append_assoc]
    by_cases h : (deploySingleRouter r).1 <;>
      refine Prod.ext rfl (Prod.ext ?_ ?_) <;> simp [h] <;> omega

end Deploy

/-- C1 counterexample: with five routers of which the second and fourth
fail at upload, deploy_all returns failure but only the three successful
deployments produce DeploymentRecords and none of the records is marked
failed, contradicting the claimed five records with two failures. -/
theorem C1_counterexample :
    Deploy.deploy_all
        [⟨"r1", false, Except.ok "h1", true, true⟩,
         ⟨"r2", false, Except.ok "h2", false, true⟩,
         ⟨"r3", false, Except.ok "h3", true, true⟩,
         ⟨"r4", false, Except.ok "h4", false, true⟩,
         ⟨"r5", false, Except.ok "h5", true, true⟩] =
      (false,
       ([⟨none, "r1", "h1", "ssh", 0, true, "", true, false⟩,
         ⟨none, "r3", "h3", "ssh", 0, true, "", true, false⟩,
         ⟨none, "r5", "h5", "ssh", 0, true, "", true, false⟩], 3, 2)) ∧
    (Deploy.deploy_all
        [⟨"r1", false, Except.ok "h1", true, true⟩,
         ⟨"r2", false, Except.ok "h2", false, true⟩,
         ⟨"r3", false, Except.ok "h3", true, true⟩,
         ⟨"r4", false, Except.ok "h4", false, true⟩,
         ⟨"r5", false, Except.ok "h5", true, true⟩]).2.1.length = 3 ∧
    (Deploy.deploy_all
        [⟨"r1", false, Except.ok "h1", true, true⟩,
         ⟨"r2", false, Except.ok "h2", false, true⟩,
         ⟨"r3", false, Except.ok "h3", true, true⟩,
         ⟨"r4", false, Except.ok "h4", false, true⟩,
         ⟨"r5", false, Except.ok "h5", true, true⟩]).2.1.countP
      (fun rec => !rec.success) = 0 := by decide

/-- C1 (amended): the aggregate result of deploy_all is success exactly
when zero per-router deployments fail, and the records written are the
concatenation of the per-router records, where a per-router attempt
records exactly one DeploymentRecord when it completes successfully or
aborts with an exception (the failed record carrying the exception
message), and records none when it is skipped for maintenance or when the
upload or reload step returns failure. -/
theorem C1_deploy_aggregate (rs : List Deploy.RouterRun)
    (r : Deploy.RouterRun) :
    ((Deploy.deploy_all rs).1 = true ↔ (Deploy.deploy_all rs).2.2.2 = 0) ∧
    ((Deploy.deploy_all rs).2.1 =
      rs.flatMap (fun x => (Deploy.deploySingleRouter x).2)) ∧
    ((Deploy.deploy_all rs).2.2.2 =
      rs.countP (fun x => !(Deploy.deploySingleRouter x).1)) ∧
    (r.maintenance_mode = true →
      Deploy.deploySingleRouter r = (true, [])) ∧
    (∀ msg, r.maintenance_mode = false → r.hashResult = Except.error msg →
      Deploy.deploySingleRouter r =
        (false,
         [⟨none, r.name, "unknown", "ssh", 0, false, msg, false, false⟩])) ∧
    (∀ h, r.maintenance_mode = false → r.hashResult = Except.ok h →
      r.uploadOk = false → Deploy.deploySingleRouter r = (false, [])) ∧
    (∀ h, r.maintenance_mode = false → r.hashResult = Except.ok h →
      r.uploadOk = true → r.reloadOk = false →
      Deploy.deploySingleRouter r = (false, [])) ∧
    (∀ h, r.maintenance_mode = false → r.hashResult = Except.ok h →
      r.uploadOk = true → r.reloadOk = true →
      Deploy.deploySingleRouter r =
        (true, [⟨none, r.name, h, "ssh", 0, true, "", true, false⟩])) := by
  refine ⟨?_, ?_, ?_, ?_, ?_, ?_, ?_, ?_⟩
  · simp [Deploy.deploy_all]
  · simp [Deploy.deploy_all, Deploy.foldl_deployStep]
  · simp [Deploy.deploy_all, Deploy.foldl_deployStep]
  · intro hm; simp [Deploy.deploySingleRouter, hm]
  · intro msg hm he; simp [Deploy.deploySingleRouter, hm, he]
  · intro h hm he hu; simp [Deploy.deploySingleRouter, hm, he, hu]
  · intro h hm he hu hr; simp [Deploy.deploySingleRouter, hm, he, hu, hr]
  · intro h hm he hu hr; simp [Deploy.deploySingleRouter, hm, he, hu, hr]

/-- C1 witness: the amended theorem applied to a router failing at upload
(no record) and to a router aborting with an exception (one failed record
carrying the message). -/
theorem C1_witness :
    Deploy.deploySingleRouter ⟨"r2", false, Except.ok "h2", false, true⟩ =
      (false, []) ∧
    Deploy.deploySingleRouter
        ⟨"r6", false, Except.error "ssh timeout", true, true⟩ =
      (false,
       [⟨none, "r6", "unknown", "ssh", 0, false, "ssh timeout", false,
         false⟩]) :=
  ⟨(C1_deploy_aggregate [] ⟨"r2", false, Except.ok "h2", false, true⟩
      ).2.2.2.2.2.1 "h2" rfl rfl rfl,
   (C1_deploy_aggregate [] ⟨"r6", false, Except.error "ssh timeout", true,
      true⟩).2.2.2.2.1 "ssh timeout" rfl rfl⟩

/-! ## State manager (src/lib/state_manager.py)

Timestamps are modelled as natural numbers in day granularity; the SQL
comparison of ISO-formatted timestamp strings is chronological, which the
numeric comparison mirrors. The JSON details blob of an event is modelled
by the generation_id / deployment_id correlation keys the source writes
into it. -/

namespace State

/-- Mirrors the EventType enum. -/
inductive EventType where
  | generation_start
  | generation_success
  | generation_failure
  | deployment_start
  | deployment_success
  | deployment_failure
  | validation_success
  | validation_failure
  | api_call_success
  | api_call_failure
  | config_reload
  | error
  | warning
  | info
deriving DecidableEq, Repr

/-- Mirrors the StateEvent dataclass (message text is summarised; the
details dictionary is reduced to its correlation ids). -/
structure StateEvent where
  timestamp : Nat
  event_type : EventType
  component : String
  message : String
  detailsGenerationId : Option Nat
  detailsDeploymentId : Option Nat
  duration_ms : Option Nat
  success : Bool
deriving DecidableEq, Repr

/-- A stored row of the events table. -/
structure EventRow where
  id : Nat
  event : StateEvent
deriving DecidableEq, Repr

/-- Mirrors the GenerationRecord dataclass (memory_peak_mb is pass-through
data the store never branches on and is carried as a natural number). -/
structure GenerationRecord where
  timestamp : Nat
  config_hash : String
  peer_count : Nat
  filter_count : Nat
  duration_ms : Nat
  memory_peak_mb : Nat
  success : Bool
  error_message : String
deriving DecidableEq, Repr

/-- A stored row of the generations table. -/
structure GenerationRow where
  id : Nat
  gen : GenerationRecord
deriving DecidableEq, Repr

/-- A stored row of the deployments table (the deployment timestamp plays
no role in any store operation and is omitted). -/
structure DeploymentRow where
  id : Nat
  dep : Deploy.DeploymentRecord
deriving DecidableEq, Repr

/-- The StateManager settings read from configuration: the three tracking
switches and the retention limits. -/
structure Config where
  track_generations : Bool
  track_deployments : Bool
  track_errors : Bool
  max_generations : Nat
  max_days : Nat
deriving DecidableEq, Repr

/-- The database state: three tables plus the AUTOINCREMENT counters
(SQLite assigns 1 to the first row of each table). -/
structure Store where
  cfg : Config
  events : List EventRow
  generations : List GenerationRow
  deployments : List DeploymentRow
  nextEventId : Nat
  nextGenId : Nat
  nextDepId : Nat

/-- A freshly initialised database. -/
def Store.init (cfg : Config) : Store := ⟨cfg, [], [], [], 1, 1, 1⟩

/-- Mirrors _should_track_event. -/
def should_track_event (cfg : Config) (et : EventType) : Bool :=
  match et with
  | .generation_start | .generation_success | .generation_failure =>
    cfg.track_generations
  | .deployment_start | .deployment_success | .deployment_failure =>
    cfg.track_deployments
  | .error | .warning => cfg.track_errors
  | _ => true

/-- Mirrors track_event: filtered events are dropped with id 0, tracked
events are inserted with the next id. -/
def track_event (s : Store) (e : StateEvent) : Nat × Store :=
  if !(should_track_event s.cfg e.event_type) then (0, s)
  else
    let id := s.nextEventId
    (id,
     { s with events := s.events ++ [⟨id, e⟩], nextEventId := id + 1 })

/-- Mirrors track_generation: when generation tracking is on, the row is
inserted and committed, then the correlated success or failure event is
emitted through track_event (now is the wall clock assigned to the
event). -/
def track_generation (s : Store) (g : GenerationRecord) (now : Nat) :
    Nat × Store :=
  if !s.cfg.track_generations then (0, s)
  else
    let gid := s.nextGenId
    let s1 :=
      { s with generations := s.generations ++ [⟨gid, g⟩],
               nextGenId := gid + 1 }
    let ev : StateEvent :=
      if g.success then
        ⟨now, EventType.generation_success, "peering_filters",
         "Generated configuration", some gid, none, some g.duration_ms,
         true⟩
      else
        ⟨now, EventType.generation_failure, "peering_filters",
         "Generation failed", some gid, none, none, false⟩
    (gid, (track_event s1 ev).2)

/-- Mirrors track_deployment. -/
def track_deployment (s : Store) (d : Deploy.DeploymentRecord)
    (now : Nat) : Nat × Store :=
  if !s.cfg.track_deployments then (0, s)
  else
    let did := s.nextDepId
    let s1 :=
      { s with deployments := s.deployments ++ [⟨did, d⟩],
               nextDepId := did + 1 }
    let ev : StateEvent :=
      if d.success then
        ⟨now, EventType.deployment_success, "update-routers",
         "Deployed configuration", none, some did, some d.duration_ms,
         true⟩
      else
        ⟨now, EventType.deployment_failure, "update-routers",
         "Deployment failed", none, some did, none, false⟩
    (did, (track_event s1 ev).2)

/-- Insertion step of the ORDER BY timestamp DESC sort. -/
def insertByTsDesc (g : GenerationRow) :
    List GenerationRow → List GenerationRow
  | [] => [g]
  | x :: xs =>
    if x.gen.timestamp ≤ g.gen.timestamp then g :: x :: xs
    else x :: insertByTsDesc g xs

/-- The generations table ordered by timestamp descending (SQL leaves the
order among equal timestamps unspecified; this sort realises one such
order). -/
def sortByTsDesc : List GenerationRow → List GenerationRow
  | [] => []
  | x :: xs => insertByTsDesc x (sortByTsDesc xs)

/-- SQL three-valued semantics of generation_id NOT IN (subquery): true
for every operand when the subquery is empty, never true for a NULL
operand against a nonempty set, and ordinary non-membership otherwise.
A row is deleted exactly when this is true. -/
def sqlNotInTrue (gid : Option Nat) (ids : List Nat) : Bool :=
  match ids, gid with
  | [], _ => true
  | _ :: _, none => false
  | is, some g => decide (g ∉ is)

/-- Mirrors cleanup_old_data: delete events with timestamp strictly below
now minus the day retention; keep only the max_generations most recent
generation rows; delete deployments whose generation_id NOT IN the
remaining generation ids (evaluated after the generation deletion, in the
same transaction). -/
def cleanup_old_data (s : Store) (now : Nat) : Store :=
  let cutoff := now - s.cfg.max_days
  let events2 :=
    s.events.filter (fun e => !(decide (e.event.timestamp < cutoff)))
  let keepIds : List Nat :=
    ((sortByTsDesc s.generations).take s.cfg.max_generations).map
      (fun g => g.id)
  let gens2 := s.generations.filter (fun g => decide (g.id ∈ keepIds))
  let genIds := gens2.map (fun g => g.id)
  let deps2 :=
    s.deployments.filter
      (fun d => !(sqlNotInTrue d.dep.generation_id genIds))
  { s with events := events2, generations := gens2, deployments := deps2 }

/-- The store states reachable from a fresh database through the write
operations of the manager. -/
inductive Reachable : Store → Prop where
  | init (cfg : Config) : Reachable (Store.init cfg)
  | ev (s : Store) (e : StateEvent) :
      Reachable s → Reachable (track_event s e).2
  | gen (s : Store) (g : GenerationRecord) (now : Nat) :
      Reachable s → Reachable (track_generation s g now).2
  | dep (s : Store) (d : Deploy.DeploymentRecord) (now : Nat) :
      Reachable s → Reachable (track_deployment s d now).2
  | cleanup (s : Store) (now : Nat) :
      Reachable s → Reachable (cleanup_old_data s now)

end State

/-- C7 counterexample: tracking a generation at day 0 and running cleanup
at day 100 with a 30-day event retention reaches a store whose generation
row survived (count-based retention keeps it) while its correlated event
was deleted (age-based retention), so the claimed invariant fails in a
reachable state. -/
theorem C7_counterexample :
    State.Reachable
      (State.cleanup_old_data
        (State.track_generation
          (State.Store.init ⟨true, true, true, 100, 30⟩)
          ⟨0, "deadbeef", 10, 5, 1000, 0, true, ""⟩ 0).2 100) ∧
    (State.cleanup_old_data
        (State.track_generation
          (State.Store.init ⟨true, true, true, 100, 30⟩)
          ⟨0, "deadbeef", 10, 5, 1000, 0, true, ""⟩ 0).2
        100).generations.length = 1 ∧
    (State.cleanup_old_data
        (State.track_generation
          (State.Store.init ⟨true, true, true, 100, 30⟩)
          ⟨0, "deadbeef", 10, 5, 1000, 0, true, ""⟩ 0).2
        100).events = [] :=
  ⟨State.Reachable.cleanup _ 100
    (State.Reachable.gen _ _ 0 (State.Reachable.init _)),
   by decide, by decide⟩

/-- C7 (amended): immediately after a completed track_generation or
track_deployment call that inserts a row, the store contains a correlated
StateEvent whose success flag and success/failure variant match the
record; the correlation does not persist across cleanup_old_data, which
deletes old events while retaining their generation rows. -/
theorem C7_dual_write (s : State.Store) (g : State.GenerationRecord)
    (d : Deploy.DeploymentRecord) (now : Nat) :
    (s.cfg.track_generations = true →
      ∃ e ∈ ((State.track_generation s g now).2).events,
        e.event.detailsGenerationId =
          some (State.track_generation s g now).1 ∧
        e.event.success = g.success ∧
        e.event.event_type =
          (if g.success then State.EventType.generation_success
           else State.EventType.generation_failure)) ∧
    (s.cfg.track_deployments = true →
      ∃ e ∈ ((State.track_deployment s d now).2).events,
        e.event.detailsDeploymentId =
          some (State.track_deployment s d now).1 ∧
        e.event.success = d.success ∧
        e.event.event_type =
          (if d.success then State.EventType.deployment_success
           else State.EventType.deployment_failure)) := by
  constructor
  · intro ht
    cases hs : g.success with
    | false =>
      refine ⟨⟨s.nextEventId,
        ⟨now, State.EventType.generation_failure, "peering_filters",
         "Generation failed", some s.nextGenId, none, none, false⟩⟩,
        ?_, ?_, ?_, ?_⟩ <;>
        simp [State.track_generation, State.track_event,
          State.should_track_event, ht, hs]
    | true =>
      refine ⟨⟨s.nextEventId,
        ⟨now, State.EventType.generation_success, "peering_filters",
         "Generated configuration", some s.nextGenId, none,
         some g.duration_ms, true⟩⟩, ?_, ?_, ?_, ?_⟩ <;>
        simp [State.track_generation, State.track_event,
          State.should_track_event, ht, hs]
  · intro ht
    cases hs : d.success with
    | false =>
      refine ⟨⟨s.nextEventId,
        ⟨now, State.EventType.deployment_failure, "update-routers",
         "Deployment failed", none, some s.nextDepId, none, false⟩⟩,
        ?_, ?_, ?_, ?_⟩ <;>
        simp [State.track_deployment, State.track_event,
          State.should_track_event, ht, hs]
    | true =>
      refine ⟨⟨s.nextEventId,
        ⟨now, State.EventType.deployment_success, "update-routers",
         "Deployed configuration", none, some s.nextDepId,
         some d.duration_ms, true⟩⟩, ?_, ?_, ?_, ?_⟩ <;>
        simp [State.track_deployment, State.track_event,
          State.should_track_event, ht, hs]

/-- C7 witness: the dual write observed on a fresh store for a successful
generation record and a failed deployment record. -/
theorem C7_witness :
    (∃ e ∈ ((State.track_generation
        (State.Store.init ⟨true, true, true, 100, 30⟩)
        ⟨0, "deadbeef", 10, 5, 1000, 0, true, ""⟩ 3).2).events,
      e.event.detailsGenerationId =
        some (State.track_generation
          (State.Store.init ⟨true, true, true, 100, 30⟩)
          ⟨0, "deadbeef", 10, 5, 1000, 0, true, ""⟩ 3).1 ∧
      e.event.success = true ∧
      e.event.event_type =
        (if true then State.EventType.generation_success
         else State.EventType.generation_failure)) ∧
    (∃ e ∈ ((State.track_deployment
        (State.Store.init ⟨true, true, true, 100, 30⟩)
        ⟨none, "r1", "h1", "ssh", 0, false, "boom", false, false⟩
        3).2).events,
      e.event.detailsDeploymentId =
        some (State.track_deployment
          (State.Store.init ⟨true, true, true, 100, 30⟩)
          ⟨none, "r1", "h1", "ssh", 0, false, "boom", false, false⟩ 3).1 ∧
      e.event.success = false ∧
      e.event.event_type =
        (if false then State.EventType.deployment_success
         else State.EventType.deployment_failure)) := by
  constructor
  · exact (C7_dual_write (State.Store.init ⟨true, true, true, 100, 30⟩)
      ⟨0, "deadbeef", 10, 5, 1000, 0, true, ""⟩
      ⟨none, "r1", "h1", "ssh", 0, false, "boom", false, false⟩ 3).1 rfl
  · exact (C7_dual_write (State.Store.init ⟨true, true, true, 100, 30⟩)
      ⟨0, "deadbeef", 10, 5, 1000, 0, true, ""⟩
      ⟨none, "r1", "h1", "ssh", 0, false, "boom", false, false⟩ 3).2 rfl

namespace State

lemma insertByTsDesc_perm (g : GenerationRow) (l : List GenerationRow) :
    List.Perm (insertByTsDesc g l) (g :: l) := by
  induction l with
  | nil => simp [insertByTsDesc]
  | cons x xs ih =>
    by_cases h : x.gen.timestamp ≤ g.gen.timestamp
    · simp [insertByTsDesc, h]
    · rw [insertByTsDesc, if_neg h]
      exact (ih.cons x).trans (List.Perm.swap g x xs)

lemma sortByTsDesc_perm (l : List GenerationRow) :
    List.Perm (sortByTsDesc l) l := by
  induction l with
  | nil => simp [sortByTsDesc]
  | cons x xs ih =>
    exact (insertByTsDesc_perm x (sortByTsDesc xs)).trans (ih.cons x)

lemma insertByTsDesc_pairwise (g : GenerationRow) (l : List GenerationRow)
    (h : l.Pairwise (fun a b => b.gen.timestamp ≤ a.gen.timestamp)) :
    (insertByTsDesc g l).Pairwise
      (fun a b => b.gen.timestamp ≤ a.gen.timestamp) := by
  induction l with
  | nil => simp [insertByTsDesc]
  | cons x xs ih =>
    rw [List.pairwise_cons] at h
    obtain ⟨hx, hxs⟩ := h
    by_cases hle : x.gen.timestamp ≤ g.gen.timestamp
    · rw [insertByTsDesc, if_pos hle, List.pairwise_cons]
      refine ⟨?_, ?_⟩
      · intro y hy
        rcases List.mem_cons.mp hy with rfl | hy2
        · exact hle
        · exact le_trans (hx y hy2) hle
      · rw [List.pairwise_cons]; exact ⟨hx, hxs⟩
    · rw [insertByTsDesc, if_neg hle, List.pairwise_cons]
      refine ⟨?_, ih hxs⟩
      intro y hy
      have hy3 := (insertByTsDesc_perm g xs).mem_iff.mp hy
      rcases List.mem_cons.mp hy3 with rfl | hy2
      · exact Nat.le_of_lt (Nat.lt_of_not_le hle)
      · exact hx y hy2

lemma sortByTsDesc_pairwise (l : List GenerationRow) :
    (sortByTsDesc l).Pairwise
      (fun a b => b.gen.timestamp ≤ a.gen.timestamp) := by
  induction l with
  | nil => simp [sortByTsDesc]
  | cons x xs ih => exact insertByTsDesc_pairwise x (sortByTsDesc xs) ih

lemma sortByTsDesc_pairwise_strict (l : List GenerationRow)
    (hne : l.Pairwise (fun a b => a.gen.timestamp ≠ b.gen.timestamp)) :
    (sortByTsDesc l).Pairwise
      (fun a b => b.gen.timestamp < a.gen.timestamp) := by
  have h1 := sortByTsDesc_pairwise l
  have h2 : (sortByTsDesc l).Pairwise
      (fun a b => a.gen.timestamp ≠ b.gen.timestamp) :=
    ((sortByTsDesc_perm l).pairwise_iff (fun hab => hab.symm)).mpr hne
  exact (h1.and h2).imp
    (fun hab => Nat.lt_of_le_of_ne hab.1 (fun heq => hab.2 heq.symm))

lemma mem_take_iff_rank (l : List GenerationRow) :
    l.Pairwise (fun a b => b.gen.timestamp < a.gen.timestamp) →
    ∀ (N : Nat) (g : GenerationRow),
      g ∈ l.take N ↔ g ∈ l ∧
        l.countP (fun x => decide (g.gen.timestamp < x.gen.timestamp)) <
          N := by
  induction l with
  | nil => intro _ N g; simp
  | cons x xs ih =>
    intro hp N g
    rw [List.pairwise_cons] at hp
    obtain ⟨hx, hxs⟩ := hp
    cases N with
    | zero => simp
    | succ n =>
      rw [List.take_succ_cons]
      by_cases hgx : g = x
      · subst hgx
        have hcount : (g :: xs).countP
            (fun y => decide (g.gen.timestamp < y.gen.timestamp)) = 0 := by
          rw [List.countP_eq_zero]
          intro a ha
          rcases List.mem_cons.mp ha with rfl | ha2
          · simp
          · simp only [decide_eq_true_eq]
            exact Nat.lt_asymm (hx a ha2)
        simp [hcount]
      · simp only [List.mem_cons, hgx, false_or]
        by_cases hgxs : g ∈ xs
        · have hlt : g.gen.timestamp < x.gen.timestamp := hx g hgxs
          have hc : (x :: xs).countP
              (fun y => decide (g.gen.timestamp < y.gen.timestamp)) =
              xs.countP
                (fun y => decide (g.gen.timestamp < y.gen.timestamp)) +
                1 := by
            rw [List.countP_cons]; simp [hlt]
          rw [hc, ih hxs n g]
          simp [hgxs, Nat.succ_lt_succ_iff]
        · have h1 : g ∉ xs.take n := fun hmem => hgxs (List.take_subset n xs hmem)
          simp [h1, hgxs]

lemma eq_of_mem_pairwise_idne {l : List GenerationRow}
    (h : l.Pairwise (fun a b => a.id ≠ b.id)) :
    ∀ {a b}, a ∈ l → b ∈ l → a.id = b.id → a = b := by
  induction l with
  | nil => simp
  | cons x xs ih =>
    rw [List.pairwise_cons] at h
    obtain ⟨hx, hxs⟩ := h
    intro a b ha hb heq
    rcases List.mem_cons.mp ha with rfl | ha2 <;>
      rcases List.mem_cons.mp hb with rfl | hb2
    · rfl
    · exact absurd heq (hx b hb2)
    · exact absurd heq.symm (hx a ha2)
    · exact ih hxs ha2 hb2 heq

lemma cleanup_events_eq (s : Store) (now : Nat) :
    (cleanup_old_data s now).events =
      s.events.filter
        (fun e => !(decide (e.event.timestamp < now - s.cfg.max_days))) :=
  rfl

lemma cleanup_generations_eq (s : Store) (now : Nat) :
    (cleanup_old_data s now).generations =
      s.generations.filter (fun g => decide (g.id ∈
        ((sortByTsDesc s.generations).take s.cfg.max_generations).map
          (fun x => x.id))) :=
  rfl

lemma cleanup_deployments_eq (s : Store) (now : Nat) :
    (cleanup_old_data s now).deployments =
      s.deployments.filter (fun d =>
        !(sqlNotInTrue d.dep.generation_id
          ((cleanup_old_data s now).generations.map
            (fun g => g.id)))) := rfl

/-- The generation-retention step keeps exactly the rows whose
strictly-more-recent count is below the retention limit, provided rows
have pairwise distinct timestamps and ids. -/
lemma cleanup_generations_rank (s : Store) (now : Nat)
    (hpair : s.generations.Pairwise
      (fun a b => a.gen.timestamp ≠ b.gen.timestamp ∧ a.id ≠ b.id))
    (g : GenerationRow) :
    g ∈ (cleanup_old_data s now).generations ↔
      g ∈ s.generations ∧
        s.generations.countP
          (fun x => decide (g.gen.timestamp < x.gen.timestamp)) <
          s.cfg.max_generations := by
  have hne := hpair.imp (fun hab => hab.1)
  have hid : s.generations.Pairwise (fun a b => a.id ≠ b.id) :=
    hpair.imp (fun hab => hab.2)
  have hid2 : (sortByTsDesc s.generations).Pairwise
      (fun a b => a.id ≠ b.id) :=
    ((sortByTsDesc_perm s.generations).pairwise_iff
      (fun hab => hab.symm)).mpr hid
  have hrank := mem_take_iff_rank (sortByTsDesc s.generations)
    (sortByTsDesc_pairwise_strict s.generations hne)
    s.cfg.max_generations
  rw [cleanup_generations_eq, List.mem_filter]
  simp only [decide_eq_true_eq, List.mem_map]
  constructor
  · rintro ⟨hgmem, g2, hg2take, hg2id⟩
    refine ⟨hgmem, ?_⟩
    have hg2mem : g2 ∈ sortByTsDesc s.generations :=
      List.take_subset _ _ hg2take
    have hgmem2 : g ∈ sortByTsDesc s.generations :=
      (sortByTsDesc_perm s.generations).mem_iff.mpr hgmem
    have hgg2 : g2 = g := eq_of_mem_pairwise_idne hid2 hg2mem hgmem2 hg2id
    subst hgg2
    obtain ⟨hg2a, hg2b⟩ := (hrank g2).mp hg2take
    rwa [(sortByTsDesc_perm s.generations).countP_eq] at hg2b
  · rintro ⟨hgmem, hcount⟩
    refine ⟨hgmem, g, ?_, rfl⟩
    refine (hrank g).mpr ⟨(sortByTsDesc_perm s.generations).mem_iff.mpr
      hgmem, ?_⟩
    rwa [(sortByTsDesc_perm s.generations).countP_eq]

end State

/-- C8: cleanup_old_data deletes exactly the event rows older than the
day-based retention window; keeps exactly the max_generations most recent
generation rows (stated for stores with pairwise distinct generation
timestamps and ids, as assigned by the database): a row survives iff
fewer than max_generations rows are strictly more recent, and with
max_generations 2 and five rows exactly the two most recent remain; and
deletes exactly the deployment rows whose referenced generation row no
longer exists. -/
theorem C8_cleanup_old_data (s : State.Store) (now : Nat)
    (hpair : s.generations.Pairwise
      (fun a b => a.gen.timestamp ≠ b.gen.timestamp ∧ a.id ≠ b.id)) :
    (∀ e, e ∈ (State.cleanup_old_data s now).events ↔
      e ∈ s.events ∧ ¬(e.event.timestamp < now - s.cfg.max_days)) ∧
    (∀ g, g ∈ (State.cleanup_old_data s now).generations ↔
      g ∈ s.generations ∧
        s.generations.countP
          (fun x => decide (g.gen.timestamp < x.gen.timestamp)) <
          s.cfg.max_generations) ∧
    (∀ d gid, d ∈ s.deployments → d.dep.generation_id = some gid →
      (d ∈ (State.cleanup_old_data s now).deployments ↔
        gid ∈ (State.cleanup_old_data s now).generations.map
          (fun g => g.id))) ∧
    (State.cleanup_old_data
        ⟨⟨true, true, true, 2, 30⟩, [],
         [⟨1, ⟨1, "c1", 0, 0, 0, 0, true, ""⟩⟩,
          ⟨2, ⟨2, "c2", 0, 0, 0, 0, true, ""⟩⟩,
          ⟨3, ⟨3, "c3", 0, 0, 0, 0, true, ""⟩⟩,
          ⟨4, ⟨4, "c4", 0, 0, 0, 0, true, ""⟩⟩,
          ⟨5, ⟨5, "c5", 0, 0, 0, 0, true, ""⟩⟩],
         [⟨1, ⟨some 1, "r1", "h1", "ssh", 0, true, "", true, false⟩⟩,
          ⟨2, ⟨some 5, "r2", "h2", "ssh", 0, true, "", true, false⟩⟩],
         1, 6, 3⟩ 0).generations =
      [⟨4, ⟨4, "c4", 0, 0, 0, 0, true, ""⟩⟩,
       ⟨5, ⟨5, "c5", 0, 0, 0, 0, true, ""⟩⟩] ∧
    (State.cleanup_old_data
        ⟨⟨true, true, true, 2, 30⟩, [],
         [⟨1, ⟨1, "c1", 0, 0, 0, 0, true, ""⟩⟩,
          ⟨2, ⟨2, "c2", 0, 0, 0, 0, true, ""⟩⟩,
          ⟨3, ⟨3, "c3", 0, 0, 0, 0, true, ""⟩⟩,
          ⟨4, ⟨4, "c4", 0, 0, 0, 0, true, ""⟩⟩,
          ⟨5, ⟨5, "c5", 0, 0, 0, 0, true, ""⟩⟩],
         [⟨1, ⟨some 1, "r1", "h1", "ssh", 0, true, "", true, false⟩⟩,
          ⟨2, ⟨some 5, "r2", "h2", "ssh", 0, true, "", true, false⟩⟩],
         1, 6, 3⟩ 0).deployments =
      [⟨2, ⟨some 5, "r2", "h2", "ssh", 0, true, "", true, false⟩⟩] := by
  refine ⟨?_, ?_, ?_, by decide, by decide⟩
  · intro e
    rw [State.cleanup_events_eq, List.mem_filter]
    simp
  · intro g
    exact State.cleanup_generations_rank s now hpair g
  · intro d gid hd hgid
    rw [State.cleanup_deployments_eq, List.mem_filter]
    simp only [hd, true_and, hgid]
    cases hL : (State.cleanup_old_data s now).generations with
    | nil => simp [State.sqlNotInTrue]
    | cons x xs => simp [State.sqlNotInTrue]

/-- C8 witness: the characterization applied to the five-row scenario
store: the most recent row (timestamp 5) survives, and the deployment row
referencing the deleted generation 1 does not. -/
theorem C8_witness :
    (⟨5, ⟨5, "c5", 0, 0, 0, 0, true, ""⟩⟩ ∈
      (State.cleanup_old_data
        ⟨⟨true, true, true, 2, 30⟩, [],
         [⟨1, ⟨1, "c1", 0, 0, 0, 0, true, ""⟩⟩,
          ⟨2, ⟨2, "c2", 0, 0, 0, 0, true, ""⟩⟩,
          ⟨3, ⟨3, "c3", 0, 0, 0, 0, true, ""⟩⟩,
          ⟨4, ⟨4, "c4", 0, 0, 0, 0, true, ""⟩⟩,
          ⟨5, ⟨5, "c5", 0, 0, 0, 0, true, ""⟩⟩],
         [⟨1, ⟨some 1, "r1", "h1", "ssh", 0, true, "", true, false⟩⟩,
          ⟨2, ⟨some 5, "r2", "h2", "ssh", 0, true, "", true, false⟩⟩],
         1, 6, 3⟩ 0).generations ↔
      (⟨5, ⟨5, "c5", 0, 0, 0, 0, true, ""⟩⟩ ∈
          ([⟨1, ⟨1, "c1", 0, 0, 0, 0, true, ""⟩⟩,
            ⟨2, ⟨2, "c2", 0, 0, 0, 0, true, ""⟩⟩,
            ⟨3, ⟨3, "c3", 0, 0, 0, 0, true, ""⟩⟩,
            ⟨4, ⟨4, "c4", 0, 0, 0, 0, true, ""⟩⟩,
            ⟨5, ⟨5, "c5", 0, 0, 0, 0, true, ""⟩⟩] :
            List State.GenerationRow) ∧
        ([⟨1, ⟨1, "c1", 0, 0, 0, 0, true, ""⟩⟩,
          ⟨2, ⟨2, "c2", 0, 0, 0, 0, true, ""⟩⟩,
          ⟨3, ⟨3, "c3", 0, 0, 0, 0, true, ""⟩⟩,
          ⟨4, ⟨4, "c4", 0, 0, 0, 0, true, ""⟩⟩,
          ⟨5, ⟨5, "c5", 0, 0, 0, 0, true, ""⟩⟩] :
          List State.GenerationRow).countP
            (fun x => decide (5 < x.gen.timestamp)) < 2)) :=
  (C8_cleanup_old_data
    ⟨⟨true, true, true, 2, 30⟩, [],
     [⟨1, ⟨1, "c1", 0, 0, 0, 0, true, ""⟩⟩,
      ⟨2, ⟨2, "c2", 0, 0, 0, 0, true, ""⟩⟩,
      ⟨3, ⟨3, "c3", 0, 0, 0, 0, true, ""⟩⟩,
      ⟨4, ⟨4, "c4", 0, 0, 0, 0, true, ""⟩⟩,
      ⟨5, ⟨5, "c5", 0, 0, 0, 0, true, ""⟩⟩],
     [⟨1, ⟨some 1, "r1", "h1", "ssh", 0, true, "", true, false⟩⟩,
      ⟨2, ⟨some 5, "r2", "h2", "ssh", 0, true, "", true, false⟩⟩],
     1, 6, 3⟩ 0 (by decide)).2.1
    ⟨5, ⟨5, "c5", 0, 0, 0, 0, true, ""⟩⟩

/-- C10 counterexample: a deployment row written by the orchestrator with
a NULL generation_id is reachable together with an empty generations
table, and the very next cleanup deletes it, because generation_id NOT IN
over an empty subquery result is true even for NULL. -/
theorem C10_counterexample :
    State.Reachable
      (State.cleanup_old_data
        (State.track_deployment
          (State.Store.init ⟨true, true, true, 100, 30⟩)
          ⟨none, "r1", "h1", "ssh", 0, true, "", true, false⟩ 0).2 0) ∧
    ((State.track_deployment
        (State.Store.init ⟨true, true, true, 100, 30⟩)
        ⟨none, "r1", "h1", "ssh", 0, true, "", true, false⟩
        0).2).deployments.map (fun d => d.dep.generation_id) = [none] ∧
    (State.cleanup_old_data
        (State.track_deployment
          (State.Store.init ⟨true, true, true, 100, 30⟩)
          ⟨none, "r1", "h1", "ssh", 0, true, "", true, false⟩ 0).2
        0).deployments = [] :=
  ⟨State.Reachable.cleanup _ 0
    (State.Reachable.dep _ _ 0 (State.Reachable.init _)),
   by decide, by decide⟩

/-- C10 (amended): a deployment row with NULL generation_id survives
cleanup_old_data exactly when at least one generation row remains after
the generation retention step; when the generations table ends up empty,
the NOT IN condition over the empty id set is true for every row and the
NULL-reference deployment rows are deleted too. -/
theorem C10_null_generation_cleanup (s : State.Store) (now : Nat)
    (d : State.DeploymentRow) (hd : d ∈ s.deployments)
    (hnull : d.dep.generation_id = none) :
    d ∈ (State.cleanup_old_data s now).deployments ↔
      (State.cleanup_old_data s now).generations ≠ [] := by
  rw [State.cleanup_deployments_eq, List.mem_filter]
  simp only [hd, true_and, hnull]
  cases hL : (State.cleanup_old_data s now).generations with
  | nil => simp [State.sqlNotInTrue]
  | cons x xs => simp [State.sqlNotInTrue]

/-- C10 witness: with one surviving generation row, the NULL-reference
deployment row survives cleanup. -/
theorem C10_witness :
    ⟨1, ⟨none, "r1", "h1", "ssh", 0, true, "", true, false⟩⟩ ∈
      (State.cleanup_old_data
        ⟨⟨true, true, true, 100, 30⟩, [],
         [⟨1, ⟨0, "deadbeef", 10, 5, 1000, 0, true, ""⟩⟩],
         [⟨1, ⟨none, "r1", "h1", "ssh", 0, true, "", true, false⟩⟩],
         1, 2, 2⟩ 0).deployments ↔
      (State.cleanup_old_data
        ⟨⟨true, true, true, 100, 30⟩, [],
         [⟨1, ⟨0, "deadbeef", 10, 5, 1000, 0, true, ""⟩⟩],
         [⟨1, ⟨none, "r1", "h1", "ssh", 0, true, "", true, false⟩⟩],
         1, 2, 2⟩ 0).generations ≠ [] :=
  C10_null_generation_cleanup
    ⟨⟨true, true, true, 100, 30⟩, [],
     [⟨1, ⟨0, "deadbeef", 10, 5, 1000, 0, true, ""⟩⟩],
     [⟨1, ⟨none, "r1", "h1", "ssh", 0, true, "", true, false⟩⟩],
     1, 2, 2⟩ 0
    ⟨1, ⟨none, "r1", "h1", "ssh", 0, true, "", true, false⟩⟩
    (by decide) rfl

end Autonet
